import Mathlib

/-!
Verification of the network interface scanning and classification subsystem
of the flockwave-net library (files `scanner.py`, `wired.py`, `wireless.py`).

The embedding is shallow: the external collaborators (the operating system's
interface enumerator, the filesystem, spawned processes, the stdlib IP
address parser) are passed in as explicit oracle functions, and the Python
functions of the repository are translated into executable Lean functions
over those oracles.  Python exceptions that the code catches are modelled by
`Option`-valued oracles; an exception that the code lets propagate is
modelled by an explicit failure value.
-/

set_option autoImplicit false
set_option linter.unusedVariables false

namespace FlockwaveNet

/-! ## String helpers

Python's `sub in s` substring test and `int(s)` parsing, modelled
executably. -/

/-- Boolean test for "the first list is an initial segment of the second". -/
def starts_with_chars : List Char → List Char → Bool
  | [], _ => true
  | _ :: _, [] => false
  | a :: as, b :: bs => a == b && starts_with_chars as bs

/-- Boolean test for "`sub` occurs as a contiguous sublist of `s`". -/
def contains_sub_chars (sub s : List Char) : Bool :=
  (List.range (s.length + 1)).any fun k => starts_with_chars sub (s.drop k)

/-- Python's `sub in s` substring membership test on strings. -/
def str_contains_sub (sub s : String) : Bool :=
  contains_sub_chars sub.data s.data

/-- The characters Python's `str.strip()` removes. -/
def is_py_space (c : Char) : Bool :=
  c == ' ' || c == '\t' || c == '\n' || c == '\r' || c == '\x0b' || c == '\x0c'

/-- Python's `s.strip()`: remove leading and trailing whitespace. -/
def py_strip (s : String) : String :=
  String.mk (((s.data.dropWhile is_py_space).reverse.dropWhile is_py_space).reverse)

/-- Value of a list of decimal digit characters. -/
def digits_to_nat (cs : List Char) : Nat :=
  cs.foldl (fun acc c => acc * 10 + (c.toNat - 48)) 0

/-- Python's `int(s)` on an already-stripped string: an optional sign
followed by a nonempty run of decimal digits; anything else raises
`ValueError`, modelled as `none`. -/
def py_int_of_string (s : String) : Option Int :=
  match s.data with
  | [] => none
  | c :: rest =>
    let signAndDigits : Int × List Char :=
      if c == '-' then (-1, rest)
      else if c == '+' then (1, rest)
      else (1, c :: rest)
    if signAndDigits.2.isEmpty || !signAndDigits.2.all (fun d => d.isDigit) then
      none
    else
      some (signAndDigits.1 * (digits_to_nat signAndDigits.2 : Int))

/-! ## Platform probes: `wired.py` (Linux variant)

`_is_carrier_detected_linux` reads `/sys/class/net/{name}/carrier`.  The
filesystem is an oracle `fs : String → Option String` giving the content a
successful open-and-read of a path would return (`none` = the read raises).
The traced variant also returns the list of paths the function actually
read, so that "no filesystem access" is expressible. -/

/-- The pseudo-file path `/sys/class/net/{name}/carrier` built from the
interface name. -/
def carrier_file_path (name : String) : String :=
  "/sys/class/net/" ++ name ++ "/carrier"

/-- Embedding of `_is_carrier_detected_linux` from `wired.py`, instrumented with the list
of filesystem paths it reads.  Rejects names containing `/` or `..`; then
reads the carrier pseudo-file and returns whether its stripped content
parses as a positive integer; every read or parse failure yields `false`
(the `except Exception: return False` handler). -/
def is_carrier_detected_linux_traced (fs : String → Option String)
    (name : String) : Bool × List String :=
  if str_contains_sub "/" name || str_contains_sub ".." name then
    (false, [])
  else
    let fname := carrier_file_path name
    match fs fname with
    | none => (false, [fname])
    | some data =>
      match py_int_of_string (py_strip data) with
      | none => (false, [fname])
      | some v => (decide (0 < v), [fname])

/-- Result of `_is_carrier_detected_linux` from `wired.py`. -/
def is_carrier_detected_linux (fs : String → Option String)
    (name : String) : Bool :=
  (is_carrier_detected_linux_traced fs name).1

/-! ## Platform probes: `wireless.py` (Linux variants) -/

/-- Model of a Python `subprocess.CompletedProcess` with captured output:
the exit code and the captured standard output, already decoded (the
`decode("utf-8", "replace")` call never raises). -/
structure CompletedProcess where
  returncode : Int
  stdout : String
deriving DecidableEq, Repr

/-- Embedding of `_get_connected_access_point_name_linux` from `wireless.py`: runs
`iwgetid -r` (the oracle `run_result` is the completed process of that
fixed command) and, when the exit code is zero, returns the stripped
standard output; otherwise `None`.  The interface name argument is accepted
but never used by the source. -/
def get_connected_access_point_name_linux (run_result : CompletedProcess)
    (name : String) : Option String :=
  if run_result.returncode == 0 then
    some (py_strip run_result.stdout)
  else
    none

/-- Embedding of `_is_likely_wireless_linux` from `wireless.py`. -/
def is_likely_wireless_linux (name : String) : Bool :=
  name.length > 2 && (name.take 2 == "wl" || name.take 2 == "ww")

/-- Embedding of `_is_maybe_wired_or_wireless_linux` from `wired.py`. -/
def is_maybe_wired_or_wireless_linux (name : String) : Bool :=
  name.length > 2 &&
    (name.take 2 == "en" || name.take 2 == "wl" || name.take 2 == "ww" ||
      name.take 3 == "eth")

/-! ## Data model of `scanner.py` -/

/-- Embedding of `NetworkInterfaceType` from `scanner.py`: wired or wireless. -/
inductive NetworkInterfaceType where
  | wired
  | wireless
deriving DecidableEq, Repr

/-- One `netifaces` address record (a Python `dict[str, str]` with the keys
the scanner ever reads modelled as optional fields). -/
structure AddrRec where
  addr : Option String := none
  netmask : Option String := none
  broadcast : Option String := none
deriving DecidableEq, Repr

/-- Embedding of `NetworkScanResultItem` from `scanner.py`. -/
structure NetworkScanResultItem where
  interface : String
  type : NetworkInterfaceType
  connected : Bool := false
  addresses : List AddrRec := []
  access_point_name : Option String := none
deriving DecidableEq, Repr

/-- Embedding of `NetworkScanResult` from `scanner.py`: a list of scan result items. -/
def NetworkScanResult := List NetworkScanResultItem
deriving DecidableEq

/-- The `netifaces` constant `AF_INET` (IPv4 address family). -/
def AF_INET : Nat := 2

/-- The `netifaces` constant `AF_LINK` (link-layer address family). -/
def AF_LINK : Nat := 17

/-- The external collaborators of one scan pass: the interface enumerator
(`list_network_interfaces`), the address map per interface
(`netifaces.ifaddresses`, a Python dict modelled as an association list from
address family to records), the stdlib loopback test `ip_address(x).is_loopback`,
and the four platform probes as selected at import time. -/
structure NetEnv where
  interfaces : List String
  ifaddrs : String → List (Nat × List AddrRec)
  ip_is_loopback : String → Bool
  is_likely_wireless : String → Bool
  get_connected_access_point_name : String → Option String
  is_carrier_detected : String → Bool
  is_maybe_wired_or_wireless : String → Bool

/-- Embedding of `_is_loopback` from `scanner.py`: fetch the `addr` key of the record and
ask the stdlib whether it is a loopback address; a record with no `addr`
key is not loopback. -/
def is_loopback (ip_is_loopback : String → Bool) (item : AddrRec) : Bool :=
  match item.addr with
  | some addr => ip_is_loopback addr
  | none => false

/-- The per-interface body of the `_find_relevant_interfaces` generator loop
in `scanner.py`: the (zero- or one-element) list of pairs yielded for one
interface.  `ifaddresses(interface).get(AF_INET)` is empty or missing:
yield `(interface, [])` when the address map has exactly one entry, that
entry is the link-layer family, and the platform says the interface may be
wired or wireless.  Otherwise: yield `(interface, ipv4_addresses)` unless
one of the IPv4 addresses is a loopback address. -/
def find_relevant_interfaces_step (env : NetEnv) (interface : String) :
    List (String × List AddrRec) :=
  let addresses := env.ifaddrs interface
  let ipv4_addresses := List.lookup AF_INET addresses
  if (ipv4_addresses.getD []).isEmpty then
    if addresses.length == 1 && (List.lookup AF_LINK addresses).isSome &&
        env.is_maybe_wired_or_wireless interface then
      [(interface, [])]
    else
      []
  else
    if (ipv4_addresses.getD []).any (is_loopback env.ip_is_loopback) then
      []
    else
      [(interface, ipv4_addresses.getD [])]

/-- The `_find_relevant_interfaces` generator loop over the enumerated
interfaces, in enumeration order. -/
def find_relevant_interfaces_from (env : NetEnv) :
    List String → List (String × List AddrRec)
  | [] => []
  | interface :: rest =>
    find_relevant_interfaces_step env interface ++
      find_relevant_interfaces_from env rest

/-- Embedding of `_find_relevant_interfaces` from `scanner.py`. -/
def find_relevant_interfaces (env : NetEnv) : List (String × List AddrRec) :=
  find_relevant_interfaces_from env env.interfaces

/-- The loop of `_scan_interfaces` in `scanner.py`: iterate over the
relevant interfaces, classify each as wireless (query the access point
probe; connected iff the answer is not `None`) or wired (connected iff the
carrier probe answers true), and append the item to the accumulator. -/
def scan_interfaces_loop (env : NetEnv) :
    List (String × List AddrRec) → List NetworkScanResultItem →
      List NetworkScanResultItem
  | [], result => result
  | (interface, addresses) :: rest, result =>
    let item :=
      if env.is_likely_wireless interface then
        let access_point_name := env.get_connected_access_point_name interface
        { interface := interface
          type := NetworkInterfaceType.wireless
          connected := access_point_name.isSome
          access_point_name := access_point_name
          addresses := addresses }
      else
        { interface := interface
          type := NetworkInterfaceType.wired
          connected := env.is_carrier_detected interface
          addresses := addresses }
    scan_interfaces_loop env rest (result ++ [item])

/-- Embedding of `_scan_interfaces` from `scanner.py`. -/
def scan_interfaces (env : NetEnv) : List NetworkScanResultItem :=
  scan_interfaces_loop env (find_relevant_interfaces env) []

/-! ## The `NetworkScanner` object state and its operations

Callbacks are identified by `Nat` identifiers (Python callables compare by
identity, so any type with decidable equality models the handler list
faithfully; registering the same callable twice puts the same identifier in
the list twice). -/

/-- The mutable state of a `NetworkScanner`: the registered result handlers
in registration order, and the cached `_last_result` (`None` before the
first completed scan). -/
structure ScannerState where
  handlers : List Nat
  last_result_cache : Option (List NetworkScanResultItem)
deriving DecidableEq, Repr

/-- Embedding of `NetworkScanner.__init__`: no handlers, no cached result. -/
def scanner_init : ScannerState :=
  { handlers := [], last_result_cache := none }

/-- Embedding of `NetworkScanner.add_result_handler`: append the callback to the handler
list and return the deregistration handle, which is
`partial(_remove_result_handler, func)` — i.e. it is keyed by the callback
itself. -/
def add_result_handler (func : Nat) (s : ScannerState) : ScannerState × Nat :=
  ({ s with handlers := s.handlers ++ [func] }, func)

/-- Python's `list.remove` wrapped in `except ValueError: pass`: remove the
first occurrence of `func` if present, otherwise leave the list unchanged. -/
def remove_first (func : Nat) : List Nat → List Nat
  | [] => []
  | g :: gs => if g == func then gs else g :: remove_first func gs

/-- Embedding of `NetworkScanner._remove_result_handler` (the body of every
deregistration handle): remove the first matching registration; a
`ValueError` from `list.remove` is swallowed. -/
def remove_result_handler (func : Nat) (s : ScannerState) : ScannerState :=
  { s with handlers := remove_first func s.handlers }

/-- Embedding of `NetworkScanner.last_result`: `list(self._last_result or ())` — a fresh
list that is value-equal to the cached result, or empty when nothing is
cached. -/
def last_result (s : ScannerState) : List NetworkScanResultItem :=
  match s.last_result_cache with
  | none => []
  | some r => r

/-- The dispatch loop `for handler in self._handlers: handler(result)`:
the sequence of callback invocations it performs, as (callback, argument)
pairs in list order. -/
def dispatch_events (s : ScannerState) (result : List NetworkScanResultItem) :
    List (Nat × List NetworkScanResultItem) :=
  s.handlers.map fun handler => (handler, result)

/-- Outcome of `to_thread.run_sync(self._scan_interfaces)` for one change
event: either the scan result, or an exception. -/
inductive ScanOutcome where
  | ok (result : List NetworkScanResultItem)
  | err
deriving DecidableEq, Repr

/-- One iteration of the `async for` body of `NetworkScanner.run`: on a
successful scan, store the result in `_last_result` and invoke every
handler with it; on a scan failure the `except Exception` handler
re-raises, so the iteration produces no new state (`none`). -/
def run_step (s : ScannerState) :
    ScanOutcome → Option (ScannerState × List (Nat × List NetworkScanResultItem))
  | ScanOutcome.ok result =>
    let s' := { s with last_result_cache := some result }
    some (s', dispatch_events s' result)
  | ScanOutcome.err => none

/-- The `async for` loop of `NetworkScanner.run` over a finite stream of
change events, each paired with the outcome of its scan pass.  Returns the
final scanner state, whether the loop was terminated by a propagating scan
exception (`true`) or by exhaustion of the event stream (`false`), and the
concatenated dispatch events. -/
def run_loop (s : ScannerState) :
    List ScanOutcome →
      ScannerState × Bool × List (Nat × List NetworkScanResultItem)
  | [] => (s, false, [])
  | o :: os =>
    match run_step s o with
    | none => (s, true, [])
    | some (s', evs) =>
      let r := run_loop s' os
      (r.1, r.2.1, evs ++ r.2.2)

/-! ## Concrete fixtures used to instantiate the theorems -/

/-- A concrete IPv4 address record for `eth0`. -/
def addr_eth0 : AddrRec :=
  { addr := some "192.168.1.5", netmask := some "255.255.255.0" }

/-- A concrete scan environment: a loopback interface `lo`, a wired `eth0`
with one IPv4 address, and a wireless `wlan0` with only a link-layer
address that is associated to the access point `HomeNet`. -/
def env0 : NetEnv :=
  { interfaces := ["lo", "eth0", "wlan0"]
    ifaddrs := fun i =>
      if i == "lo" then [(AF_INET, [{ addr := some "127.0.0.1" }])]
      else if i == "eth0" then [(AF_INET, [addr_eth0])]
      else [(AF_LINK, [{ addr := some "aa:bb:cc:dd:ee:ff" }])]
    ip_is_loopback := fun a => a == "127.0.0.1"
    is_likely_wireless := fun i => i == "wlan0"
    get_connected_access_point_name := fun i =>
      if i == "wlan0" then some "HomeNet" else none
    is_carrier_detected := fun i => i == "eth0"
    is_maybe_wired_or_wireless := fun i => i != "lo" }

/-- The wired item that scanning `env0` produces for `eth0`. -/
def item_eth0 : NetworkScanResultItem :=
  { interface := "eth0"
    type := NetworkInterfaceType.wired
    connected := true
    addresses := [addr_eth0] }

/-- A cached scan result present before a failing scan pass. -/
def c3_cached_item : NetworkScanResultItem :=
  { interface := "eth0"
    type := NetworkInterfaceType.wired
    connected := true }

/-- The scan result that a later successful scan pass would produce. -/
def c3_fresh_item : NetworkScanResultItem :=
  { interface := "wlan0"
    type := NetworkInterfaceType.wireless
    connected := false }

/-- A scanner state with one registered handler and a cached result. -/
def c3_state : ScannerState :=
  { handlers := [7], last_result_cache := some [c3_cached_item] }

/-- The scan result item for one relevant interface as §4.3 of the
specification describes it: a wireless candidate gets kind Wireless, the
access point probe's answer, and connected iff that answer is not `None`;
anything else gets kind Wired, the carrier probe's answer as connected,
and no access point name; the addresses are the filter's, in order.  This
definition follows the specification's words; the claim compares the
source-derived `scan_interfaces` against it. -/
def scan_item_spec (env : NetEnv) (p : String × List AddrRec) :
    NetworkScanResultItem :=
  if env.is_likely_wireless p.1 then
    { interface := p.1
      type := NetworkInterfaceType.wireless
      connected := (env.get_connected_access_point_name p.1).isSome
      access_point_name := env.get_connected_access_point_name p.1
      addresses := p.2 }
  else
    { interface := p.1
      type := NetworkInterfaceType.wired
      connected := env.is_carrier_detected p.1
      access_point_name := none
      addresses := p.2 }

/-! ## Helper lemmas -/

/-- Two singleton lists of pairs are equal only if the second components
of their pairs are. -/
theorem singleton_snd_eq {a b : String} {x y : List AddrRec}
    (h : ([(a, x)] : List (String × List AddrRec)) = [(b, y)]) : x = y := by
  have h2 := congrArg (fun xs => (xs.headD ("", [])).2) h
  simpa using h2

/-- The accumulating loop of `_scan_interfaces` appends, to its
accumulator, exactly one item per relevant interface, in order. -/
theorem scan_interfaces_loop_eq (env : NetEnv) :
    ∀ (xs : List (String × List AddrRec)) (acc : List NetworkScanResultItem),
      scan_interfaces_loop env xs acc = acc ++ xs.map (scan_item_spec env)
  | [], acc => by simp [scan_interfaces_loop]
  | (interface, addresses) :: rest, acc => by
    rw [scan_interfaces_loop, scan_interfaces_loop_eq env rest]
    by_cases hw : env.is_likely_wireless interface = true
    · simp [scan_item_spec, hw]
    · simp only [Bool.not_eq_true] at hw
      simp [scan_item_spec, hw]

/-- Removing an element that does not occur in a list leaves it unchanged. -/
theorem remove_first_of_not_mem (func : Nat) :
    ∀ (l : List Nat), func ∉ l → remove_first func l = l
  | [], _ => rfl
  | g :: gs, h => by
    have hg : (g == func) = false := by
      simp only [List.mem_cons, not_or] at h
      simp [Ne.symm h.1]
    simp [remove_first, hg, remove_first_of_not_mem func gs (by
      simp only [List.mem_cons, not_or] at h
      exact h.2)]

/-! ## Claim theorems -/

/-- C10: the Linux access-point-name probe ignores its interface-name
argument — for a fixed outcome of the external `iwgetid -r` command it
returns the same answer for any two interface names — and when the command
exits with status zero and empty output it returns the empty string, not
`None`. -/
theorem ap_name_probe_ignores_interface_name (run_result : CompletedProcess)
    (a b : String) :
    get_connected_access_point_name_linux run_result a =
      get_connected_access_point_name_linux run_result b ∧
    get_connected_access_point_name_linux { returncode := 0, stdout := "" } a =
      some "" := by
  constructor
  · rfl
  · rfl

/-- C4: for every interface name containing the substring `/` or the
substring `..`, the Linux carrier-detection probe returns `false` and its
trace of filesystem reads is empty, whatever the filesystem contains. -/
theorem carrier_probe_rejects_path_traversal (fs : String → Option String)
    (name : String)
    (h : str_contains_sub "/" name = true ∨ str_contains_sub ".." name = true) :
    is_carrier_detected_linux_traced fs name = (false, []) := by
  unfold is_carrier_detected_linux_traced
  have hc : (str_contains_sub "/" name || str_contains_sub ".." name) = true := by
    rcases h with h | h <;> simp [h]
  simp [hc]

/-- Witness for C4: the name `eth/0` is rejected with no filesystem read
even when the file the name would denote exists with positive content. -/
theorem carrier_probe_rejects_path_traversal_witness :
    is_carrier_detected_linux_traced (fun _ => some "1") "eth/0" = (false, []) :=
  carrier_probe_rejects_path_traversal (fun _ => some "1") "eth/0"
    (Or.inl (by decide))

/-- C5: for every interface name that passes the path-traversal guard, the
Linux carrier-detection probe — a total function, so no error ever
propagates — returns `true` iff reading the carrier pseudo-file succeeds
and its stripped content parses as a positive integer; every read or parse
failure yields `false`; and the probe reads exactly that pseudo-file. -/
theorem carrier_probe_true_iff_positive_content (fs : String → Option String)
    (name : String)
    (h : (str_contains_sub "/" name || str_contains_sub ".." name) = false) :
    (is_carrier_detected_linux fs name = true ↔
      ∃ data v, fs (carrier_file_path name) = some data ∧
        py_int_of_string (py_strip data) = some v ∧ 0 < v) ∧
    (is_carrier_detected_linux_traced fs name).2 = [carrier_file_path name] := by
  unfold is_carrier_detected_linux is_carrier_detected_linux_traced
  simp only [h, Bool.false_eq_true, if_false]
  cases hread : fs (carrier_file_path name) with
  | none =>
    simp only [hread]
    constructor
    · constructor
      · intro hfalse
        exact absurd hfalse (by simp)
      · rintro ⟨data, v, hdata, -, -⟩
        exact absurd hdata (by simp)
    · trivial
  | some data =>
    simp only [hread]
    cases hparse : py_int_of_string (py_strip data) with
    | none =>
      simp only [hparse]
      constructor
      · constructor
        · intro hfalse
          exact absurd hfalse (by simp)
        · rintro ⟨data', v, hdata, hparse', -⟩
          rw [Option.some_inj] at hdata
          subst hdata
          rw [hparse] at hparse'
          exact absurd hparse' (by simp)
      · trivial
    | some v =>
      simp only [hparse]
      constructor
      · constructor
        · intro htrue
          refine ⟨data, v, rfl, hparse, ?_⟩
          simpa using htrue
        · rintro ⟨data', v', hdata, hparse', hv⟩
          rw [Option.some_inj] at hdata
          subst hdata
          rw [hparse, Option.some_inj] at hparse'
          subst hparse'
          simpa using hv
      · trivial

/-- Witness for C5: on the safe name `eth0` with the carrier file reading
` 1` followed by a newline, the probe answers `true`. -/
theorem carrier_probe_true_iff_positive_content_witness :
    is_carrier_detected_linux (fun _ => some " 1\n") "eth0" = true :=
  ((carrier_probe_true_iff_positive_content (fun _ => some " 1\n") "eth0"
      (by decide)).1).mpr ⟨" 1\n", 1, rfl, by decide, by decide⟩

/-- C7: invoking a deregistration handle whose callback has no current
registration — because it was already removed or never registered — leaves
the scanner state (in particular the observer registry) unchanged; the
`ValueError` that `list.remove` raises is swallowed, so nothing propagates. -/
theorem deregister_unknown_handle_is_noop (s : ScannerState) (func : Nat)
    (h : func ∉ s.handlers) :
    remove_result_handler func s = s := by
  unfold remove_result_handler
  rw [remove_first_of_not_mem func s.handlers h]

/-- Witness for C7: deregistering the unregistered callback `2` from a
state holding only callback `1` changes nothing. -/
theorem deregister_unknown_handle_is_noop_witness :
    remove_result_handler 2 { handlers := [1], last_result_cache := none } =
      { handlers := [1], last_result_cache := none } :=
  deregister_unknown_handle_is_noop
    { handlers := [1], last_result_cache := none } 2 (by decide)

/-- C9: before any scan has completed the cached result is `None` and
`last_result` returns the empty sequence, whatever handlers are
registered; and after a loop iteration whose scan succeeds with `result`,
`last_result` returns a value equal to `result`, which is also the exact
value handed to every observer of that dispatch. -/
theorem last_result_empty_or_latest_dispatched (s : ScannerState)
    (result : List NetworkScanResultItem) (handlers : List Nat) :
    last_result { handlers := handlers, last_result_cache := none } = [] ∧
    ∃ s' evs, run_step s (ScanOutcome.ok result) = some (s', evs) ∧
      last_result s' = result ∧
      evs = s'.handlers.map (fun handler => (handler, result)) := by
  refine ⟨rfl, { s with last_result_cache := some result },
    dispatch_events { s with last_result_cache := some result } result,
    rfl, rfl, rfl⟩

/-- C3 (amended): when the scan pass of a loop iteration raises, the
`except Exception` handler of `NetworkScanner.run` re-raises, so the
previously cached last-result is retained unchanged (the assignment to
`_last_result` is never reached and no observer is invoked), but the
exception propagates out of `run` and the loop terminates without
processing any further change event. -/
theorem scan_failure_retains_cache_and_terminates (s : ScannerState)
    (rest : List ScanOutcome) :
    run_loop s (ScanOutcome.err :: rest) = (s, true, []) ∧
    (run_loop s (ScanOutcome.err :: rest)).1.last_result_cache =
      s.last_result_cache :=
  ⟨rfl, rfl⟩

/-- C3 (counterexample): the claim says a failed scan leaves the loop
running so that the next change event is still processed.  Concretely,
with a cached result present and the event stream offering a failing scan
followed by a successful one producing `[c3_fresh_item]`, the claim
predicts that the second event is scanned, the cache becomes
`some [c3_fresh_item]`, and handler `7` is invoked with it.  Instead the
loop stops at the failure: the state is unchanged, the termination flag
reports a propagated exception, and no observer is ever invoked. -/
theorem scan_failure_terminates_loop_counterexample :
    run_loop c3_state [ScanOutcome.err, ScanOutcome.ok [c3_fresh_item]] =
      (c3_state, true, []) ∧
    (run_loop c3_state
        [ScanOutcome.err, ScanOutcome.ok [c3_fresh_item]]).1.last_result_cache ≠
      some [c3_fresh_item] ∧
    (run_loop c3_state
        [ScanOutcome.err, ScanOutcome.ok [c3_fresh_item]]).2.2 = [] := by
  refine ⟨rfl, ?_, rfl⟩
  decide

/-- C8: dispatch invokes the registered callbacks in registration order —
the invocation sequence of a dispatch is exactly the handler list paired
with the result — so a callback registered twice occupies two positions
and, when those are its only registrations, is invoked exactly twice; in
general every callback is invoked once per registration. -/
theorem callback_invoked_once_per_registration (s : ScannerState) (func : Nat)
    (result : List NetworkScanResultItem) :
    (add_result_handler func (add_result_handler func s).1).1.handlers =
      s.handlers ++ [func, func] ∧
    (dispatch_events (add_result_handler func (add_result_handler func s).1).1
        result).map Prod.fst = s.handlers ++ [func, func] ∧
    (func ∉ s.handlers →
      ((dispatch_events
          (add_result_handler func (add_result_handler func s).1).1
          result).filter (fun e => e.1 == func)).length = 2) ∧
    ((dispatch_events s result).filter (fun e => e.1 == func)).length =
      s.handlers.count func := by
  have hh : (add_result_handler func (add_result_handler func s).1).1.handlers =
      s.handlers ++ [func, func] := by
    simp [add_result_handler]
  have hfilter : ∀ (l : List Nat),
      ((l.map (fun handler => (handler, result))).filter
          (fun e => e.1 == func)).length = l.count func := by
    intro l
    induction l with
    | nil => rfl
    | cons g gs ih =>
      by_cases hg : (g == func) = true
      · simp [List.count_cons, hg, ih]
      · simp only [Bool.not_eq_true] at hg
        simp [List.count_cons, hg, ih]
  have hfst : ∀ (l : List Nat),
      (l.map (fun handler => (handler, result))).map Prod.fst = l := by
    intro l
    induction l with
    | nil => rfl
    | cons g gs ih => simp [ih]
  refine ⟨hh, ?_, ?_, hfilter s.handlers⟩
  · rw [dispatch_events, hh, hfst]
  · intro hnm
    rw [dispatch_events, hh, hfilter (s.handlers ++ [func, func])]
    rw [List.count_append, List.count_eq_zero_of_not_mem hnm]
    simp [List.count_cons]

/-- Witness for C8: registering callback `5` twice on a fresh scanner makes
a dispatch invoke it exactly twice. -/
theorem callback_invoked_once_per_registration_witness :
    ((dispatch_events
        (add_result_handler 5 (add_result_handler 5 scanner_init).1).1
        []).filter (fun e => e.1 == 5)).length = 2 :=
  (callback_invoked_once_per_registration scanner_init 5 []).2.2.1 (by decide)

/-- C1: a scan pass produces exactly one item per pair yielded by the
relevance filter, in enumeration order with no deduplication and no
sorting: the scan is the elementwise image of the filter's output under
the specification's per-interface classification (`scan_item_spec`), so
in particular both lists have the same length. -/
theorem scan_pass_one_item_per_relevant_interface (env : NetEnv) :
    scan_interfaces env =
      (find_relevant_interfaces env).map (scan_item_spec env) ∧
    (scan_interfaces env).length = (find_relevant_interfaces env).length := by
  have h := scan_interfaces_loop_eq env (find_relevant_interfaces env) []
  rw [List.nil_append] at h
  rw [scan_interfaces, h]
  exact ⟨rfl, List.length_map _ _⟩

/-- C6: every item a scan pass produces has `access_point_name = None`
when its kind is Wired, and can only carry an access point name when its
kind is Wireless. -/
theorem access_point_name_only_for_wireless (env : NetEnv)
    (item : NetworkScanResultItem) (h : item ∈ scan_interfaces env) :
    (item.type = NetworkInterfaceType.wired →
      item.access_point_name = none) ∧
    (∀ ap, item.access_point_name = some ap →
      item.type = NetworkInterfaceType.wireless) := by
  rw [scan_interfaces, scan_interfaces_loop_eq env _ [], List.nil_append,
    List.mem_map] at h
  obtain ⟨p, -, rfl⟩ := h
  unfold scan_item_spec
  by_cases hw : env.is_likely_wireless p.1 = true
  · simp [hw]
  · simp only [Bool.not_eq_true] at hw
    simp [hw]

/-- Witness for C6: the wired `eth0` item of the concrete scan of `env0`
satisfies both parts of the invariant. -/
theorem access_point_name_only_for_wireless_witness :
    (item_eth0.type = NetworkInterfaceType.wired →
      item_eth0.access_point_name = none) ∧
    (∀ ap, item_eth0.access_point_name = some ap →
      item_eth0.type = NetworkInterfaceType.wireless) :=
  access_point_name_only_for_wireless env0 item_eth0 (by decide)

/-- C2: the relevance filter processes each enumerated interface
independently (the filter's output is the concatenation of the
per-interface yields, in enumeration order), and for a single interface:
it yields `(interface, l)` with a non-empty `l` iff `l` is the interface's
IPv4 address list and none of those addresses is a loopback address; it
yields `(interface, [])` iff the IPv4 list is empty or missing, the
address map holds exactly one family, that family is the link-layer one,
and the relevance probe answers true; and in every other case the
interface is skipped (the yield for it is either empty or the single pair
described above, never anything else). -/
theorem find_relevant_interfaces_characterization (env : NetEnv)
    (interface : String) :
    (find_relevant_interfaces env =
      env.interfaces.flatMap (find_relevant_interfaces_step env)) ∧
    (∀ l, l ≠ [] →
      (find_relevant_interfaces_step env interface = [(interface, l)] ↔
        List.lookup AF_INET (env.ifaddrs interface) = some l ∧
        ∀ r ∈ l, is_loopback env.ip_is_loopback r = false)) ∧
    (find_relevant_interfaces_step env interface = [(interface, [])] ↔
      (List.lookup AF_INET (env.ifaddrs interface)).getD [] = [] ∧
      (env.ifaddrs interface).length = 1 ∧
      (List.lookup AF_LINK (env.ifaddrs interface)).isSome = true ∧
      env.is_maybe_wired_or_wireless interface = true) ∧
    (find_relevant_interfaces_step env interface = [] ∨
      find_relevant_interfaces_step env interface =
        [(interface, (List.lookup AF_INET (env.ifaddrs interface)).getD [])]) := by
  have hbind : ∀ (xs : List String),
      find_relevant_interfaces_from env xs =
        xs.flatMap (find_relevant_interfaces_step env) := by
    intro xs
    induction xs with
    | nil => rfl
    | cons i rest ih =>
      rw [find_relevant_interfaces_from, List.flatMap_cons, ih]
  refine ⟨hbind env.interfaces, ?_⟩
  unfold find_relevant_interfaces_step
  by_cases hempty :
      ((List.lookup AF_INET (env.ifaddrs interface)).getD []).isEmpty = true
  · have h0 : (List.lookup AF_INET (env.ifaddrs interface)).getD [] = [] :=
      List.isEmpty_iff.mp hempty
    simp only [hempty, if_true]
    by_cases hcond : ((env.ifaddrs interface).length == 1 &&
        (List.lookup AF_LINK (env.ifaddrs interface)).isSome &&
        env.is_maybe_wired_or_wireless interface) = true
    · simp only [hcond, if_true]
      rw [Bool.and_eq_true, Bool.and_eq_true] at hcond
      obtain ⟨⟨hlen, hlink⟩, hprobe⟩ := hcond
      refine ⟨?_, ?_, Or.inr (by rw [h0])⟩
      · intro l hl
        constructor
        · intro hEq
          exact absurd (singleton_snd_eq hEq).symm hl
        · rintro ⟨hlook2, -⟩
          rw [hlook2] at h0
          simp only [Option.getD_some] at h0
          exact absurd h0 hl
      · exact ⟨fun _ => ⟨h0, by simpa using hlen, hlink, hprobe⟩,
          fun _ => by trivial⟩
    · simp only [hcond, if_false]
      refine ⟨?_, ?_, Or.inl rfl⟩
      · intro l hl
        constructor
        · intro hEq
          exact absurd hEq (by simp)
        · rintro ⟨hlook2, -⟩
          rw [hlook2] at h0
          simp only [Option.getD_some] at h0
          exact absurd h0 hl
      · constructor
        · intro hEq
          exact absurd hEq (by simp)
        · rintro ⟨-, hlen, hlink, hprobe⟩
          exact absurd (by simp [hlen, hlink, hprobe]) hcond
  · have hne : (List.lookup AF_INET (env.ifaddrs interface)).getD [] ≠ [] := by
      intro h
      rw [h] at hempty
      exact hempty rfl
    have hlook : List.lookup AF_INET (env.ifaddrs interface) =
        some ((List.lookup AF_INET (env.ifaddrs interface)).getD []) := by
      cases hl : List.lookup AF_INET (env.ifaddrs interface) with
      | none =>
        rw [hl] at hne
        exact absurd rfl hne
      | some l0 => rfl
    simp only [hempty, if_false]
    by_cases hany : ((List.lookup AF_INET (env.ifaddrs interface)).getD []).any
        (is_loopback env.ip_is_loopback) = true
    · simp only [hany, if_true]
      obtain ⟨r0, hr0mem, hr0⟩ := List.any_eq_true.mp hany
      refine ⟨?_, ?_, Or.inl rfl⟩
      · intro l hl
        constructor
        · intro hEq
          exact absurd hEq (by simp)
        · rintro ⟨hlook2, hall⟩
          have hle : (List.lookup AF_INET (env.ifaddrs interface)).getD [] = l := by
            rw [hlook2]
            rfl
          rw [hle] at hr0mem
          rw [hall r0 hr0mem] at hr0
          exact absurd hr0 Bool.false_ne_true
      · constructor
        · intro hEq
          exact absurd hEq (by simp)
        · rintro ⟨h0, -⟩
          exact absurd h0 hne
    · simp only [hany, if_false]
      have hall : ∀ r ∈ (List.lookup AF_INET (env.ifaddrs interface)).getD [],
          is_loopback env.ip_is_loopback r = false := by
        intro r hr
        by_contra hcontra
        rw [Bool.not_eq_false] at hcontra
        exact hany (List.any_eq_true.mpr ⟨r, hr, hcontra⟩)
      refine ⟨?_, ?_, Or.inr rfl⟩
      · intro l hl
        constructor
        · intro hEq
          have hle := singleton_snd_eq hEq
          rw [← hle]
          exact ⟨hlook, hall⟩
        · rintro ⟨hlook2, -⟩
          have hle : (List.lookup AF_INET (env.ifaddrs interface)).getD [] = l := by
            rw [hlook2]
            rfl
          rw [hle]
          simp
      · constructor
        · intro hEq
          exact absurd (singleton_snd_eq hEq) hne
        · rintro ⟨h0, -⟩
          exact absurd h0 hne

/-- Witness for C2: in the concrete environment `env0` the interface
`eth0` has the non-empty, non-loopback IPv4 list `[addr_eth0]`, so the
filter yields exactly `(eth0, [addr_eth0])` for it. -/
theorem find_relevant_interfaces_characterization_witness :
    find_relevant_interfaces_step env0 "eth0" = [("eth0", [addr_eth0])] :=
  (((find_relevant_interfaces_characterization env0 "eth0").2.1 [addr_eth0]
      (by decide)).mpr ⟨by decide, by decide⟩)

end FlockwaveNet
